/-
Verification development for the staged-betting workflow engine
(decision graph, stake solver, session state machine, execution
coordinator, overnight guardian).

Modeling conventions for the shallow embedding:
* JavaScript numbers are modeled as rationals (ℚ).  Every arithmetic
  margin used in a theorem below is far larger than double-precision
  rounding error, so no conclusion depends on the ℚ-vs-float gap.
  Lean's total division (x / 0 = 0) differs from JavaScript (±Infinity);
  wherever a zero denominator is actually reachable this is called out
  next to the definition, and no theorem asserts the numeric value that
  such a division produces — only error behavior, which is insensitive
  to it because the translated code has no branch that inspects the
  quotient for infinity.
* Databases are modeled as in-memory lists of rows carried in explicit
  state; SQL UPDATE/INSERT statements become pure list transformations.
* Functions whose source can throw are given an Except return type; a
  translated function returns an error exactly where the source throws
  (or where JavaScript raises a TypeError, e.g. a call to a method that
  does not exist on the receiver).
* Ambient effects that are inputs in disguise (the cached real-time
  cost snapshot, the venue account balance, the wall clock, generated
  session ids, per-attempt venue responses) are passed as parameters.
-/
import Mathlib

set_option maxRecDepth 10000

/-! ## Decision graph (src/lib/decision-tree.ts)

The static decision tree: node ids map to a stake-percentage string, a
level, win/loss edges and a terminal marker.  The level "END" of the two
terminal nodes is modeled as `none`. -/

structure DecisionNode where
  value : String
  level : Option Nat
  win : Option String := none
  loss : Option String := none
  final : Bool := false
deriving DecidableEq

def decisionTree : String → Option DecisionNode
  | "Start" => some { value := "0.65%", level := some 1, win := some "1-0", loss := some "0-1" }
  | "1-0" => some { value := "0.58%", level := some 2, win := some "2-0", loss := some "1-1" }
  | "0-1" => some { value := "0.73%", level := some 2, win := some "1-1", loss := some "0-2" }
  | "2-0" => some { value := "0.44%", level := some 3, win := some "3-0", loss := some "2-1" }
  | "1-1" => some { value := "0.73%", level := some 3, win := some "2-1", loss := some "1-2" }
  | "0-2" => some { value := "0.73%", level := some 3, win := some "1-2", loss := some "0-3" }
  | "3-0" => some { value := "0.25%", level := some 4, win := some "4-0", loss := some "3-1" }
  | "2-1" => some { value := "0.62%", level := some 4, win := some "3-1", loss := some "2-2" }
  | "1-2" => some { value := "0.83%", level := some 4, win := some "2-2", loss := some "1-3" }
  | "0-3" => some { value := "0.62%", level := some 4, win := some "1-3", loss := some "0-4" }
  | "4-0" => some { value := "0.08%", level := some 5, win := some "WIN", loss := some "4-1" }
  | "3-1" => some { value := "0.41%", level := some 5, win := some "4-1", loss := some "3-2" }
  | "2-2" => some { value := "0.83%", level := some 5, win := some "3-2", loss := some "2-3" }
  | "1-3" => some { value := "0.83%", level := some 5, win := some "2-3", loss := some "1-4" }
  | "0-4" => some { value := "0.41%", level := some 5, win := some "1-4", loss := some "0-5" }
  | "4-1" => some { value := "0.17%", level := some 6, win := some "WIN", loss := some "4-2" }
  | "3-2" => some { value := "0.66%", level := some 6, win := some "4-2", loss := some "3-3" }
  | "2-3" => some { value := "0.99%", level := some 6, win := some "3-3", loss := some "2-4" }
  | "1-4" => some { value := "0.66%", level := some 6, win := some "2-4", loss := some "1-5" }
  | "0-5" => some { value := "0.17%", level := some 6, win := some "1-5", loss := some "LOST" }
  | "4-2" => some { value := "0.33%", level := some 7, win := some "WIN", loss := some "4-3" }
  | "3-3" => some { value := "0.99%", level := some 7, win := some "4-3", loss := some "3-4" }
  | "2-4" => some { value := "0.99%", level := some 7, win := some "3-4", loss := some "2-5" }
  | "1-5" => some { value := "0.33%", level := some 7, win := some "2-5", loss := some "LOST" }
  | "4-3" => some { value := "0.66%", level := some 8, win := some "WIN", loss := some "4-4" }
  | "3-4" => some { value := "1.33%", level := some 8, win := some "4-4", loss := some "3-5" }
  | "2-5" => some { value := "0.66%", level := some 8, win := some "3-5", loss := some "LOST" }
  | "4-4" => some { value := "1.33%", level := some 9, win := some "WIN", loss := some "4-5" }
  | "3-5" => some { value := "1.33%", level := some 9, win := some "4-5", loss := some "LOST" }
  | "4-5" => some { value := "2.65%", level := some 10, win := some "WIN", loss := some "LOST" }
  | "WIN" => some { value := "+2.00%", level := none, final := true }
  | "LOST" => some { value := "-3.31%", level := none, final := true }
  | _ => none

def decisionTreeNodeIds : List String :=
  ["Start", "1-0", "0-1", "2-0", "1-1", "0-2", "3-0", "2-1", "1-2", "0-3",
   "4-0", "3-1", "2-2", "1-3", "0-4", "4-1", "3-2", "2-3", "1-4", "0-5",
   "4-2", "3-3", "2-4", "1-5", "4-3", "3-4", "2-5", "4-4", "3-5", "4-5",
   "WIN", "LOST"]

/-- Whether nextNode is reachable from currentNode via exactly one
win/loss edge of the static graph — the authoritative edge table. -/
def isGraphEdge (currentNode nextNode : String) : Bool :=
  match decisionTree currentNode with
  | some node => node.win = some nextNode || node.loss = some nextNode
  | none => false

/-! ## calculateValue (src/lib/decision-tree.ts)

The source strips the first occurrence of each of the characters
'%', '+', '-' (String.prototype.replace with a string pattern replaces
only the first occurrence), parses the remainder with parseFloat, and
returns Math.round((p / 100) * amount).  parseFloat is modeled for the
grammar [sign] digits [. digits]; absence of any digit is NaN, modeled
as `none`.  Math.round(x) is ⌊x + 1/2⌋. -/

def removeFirst (c : Char) : List Char → List Char
  | [] => []
  | x :: xs => if x = c then xs else x :: removeFirst c xs

def digitsToNat (l : List Char) : Nat :=
  l.foldl (fun n c => 10 * n + (c.toNat - 48)) 0

/-- The string-level phase of parseFloat: an optional sign, integer
digits, an optional dot and fraction digits, ignoring trailing junk.
Returns (negative, integer value, fraction value, fraction length),
or none when no digit was found (NaN). -/
def parseFloatParts (s : String) : Option (Bool × Nat × Nat × Nat) :=
  let (neg, l) : Bool × List Char :=
    match s.data with
    | '-' :: t => (true, t)
    | '+' :: t => (false, t)
    | t => (false, t)
  let intPart := l.takeWhile Char.isDigit
  let rest := l.dropWhile Char.isDigit
  match rest with
  | '.' :: t =>
    let frac := t.takeWhile Char.isDigit
    if intPart.isEmpty && frac.isEmpty then none
    else some (neg, digitsToNat intPart, digitsToNat frac, frac.length)
  | _ => if intPart.isEmpty then none else some (neg, digitsToNat intPart, 0, 0)

def parseFloatQ (s : String) : Option ℚ :=
  (parseFloatParts s).map fun q =>
    (if q.1 then (-1 : ℚ) else 1) * ((q.2.1 : ℚ) + (q.2.2.1 : ℚ) / 10 ^ q.2.2.2)

def stripPercentSign (s : String) : String :=
  String.mk (removeFirst '-' (removeFirst '+' (removeFirst '%' s.data)))

/-- Math.round: round half toward positive infinity. -/
def jsRound (x : ℚ) : ℤ := ⌊x + 1 / 2⌋

def calculateValue (percentage : String) (amount : ℚ) : Option ℤ :=
  (parseFloatQ (stripPercentSign percentage)).map fun p => jsRound (p / 100 * amount)

/-- The stake-percentage strings appearing as node values of the tree. -/
def stakePercentageStrings : List String :=
  ["0.65%", "0.58%", "0.73%", "0.44%", "0.25%", "0.62%", "0.83%", "0.08%",
   "0.41%", "0.17%", "0.66%", "0.99%", "0.33%", "1.33%", "2.65%",
   "+2.00%", "-3.31%"]

lemma stakePercentageStrings_cover_tree :
    decisionTreeNodeIds.all (fun i =>
      match decisionTree i with
      | some n => stakePercentageStrings.contains n.value
      | none => false) = true := by decide

/-! ## Node-jump validation (trade-result route, src/unnamed/part_005)

The route derives a "level" for a node by deleting every non-digit
character from the node id (the /\D/g regex), parsing the remainder as
an integer, and defaulting to 1 when the parse yields NaN or 0
(parseInt(x) || 1).  Note that this turns the node id "1-0" into the
number 10, not the tree level 2. -/

structure NodeJumpValidation where
  isValid : Bool
  expectedNode : Option String := none
  actualNode : Option String := none
  requiresRollback : Bool
  rollbackToNode : Option String := none
deriving DecidableEq

def stripNonDigits (s : String) : String :=
  String.mk (s.data.filter Char.isDigit)

def nodeLevel (s : String) : Nat :=
  let v := digitsToNat (stripNonDigits s).data
  if v = 0 then 1 else v

def validateNodeJump (currentNode nextNode : String) : NodeJumpValidation :=
  let currentLevel := nodeLevel currentNode
  let nextLevel := nodeLevel nextNode
  if nextLevel > currentLevel + 1 then
    { isValid := false,
      expectedNode := some ("Level " ++ toString (currentLevel + 1)),
      actualNode := some nextNode,
      requiresRollback := true,
      rollbackToNode := some currentNode }
  else
    { isValid := true,
      expectedNode := some nextNode,
      actualNode := some nextNode,
      requiresRollback := false }

/-! ## ExceptionHandler.validateNodeJump (src/lib/exception-handler.ts)

This second validator consults a hard-coded progression table whose
keys are "Start" and "Level 1" … "Level 10" — names that do not occur
in the decision tree except for "Start". -/

structure ExceptionHandlingConfig where
  maxRetryCount : Nat
  cacheTimeoutMs : Nat
  partialFillThreshold : ℚ
  nodeJumpValidationEnabled : Bool
  rollbackConfirmationRequired : Bool

def defaultExceptionHandlingConfig : ExceptionHandlingConfig :=
  { maxRetryCount := 3, cacheTimeoutMs := 3600000, partialFillThreshold := 1 / 10,
    nodeJumpValidationEnabled := true, rollbackConfirmationRequired := true }

def validProgressions : String → List String
  | "Start" => ["Level 1"]
  | "Level 1" => ["Level 2", "Level 3"]
  | "Level 2" => ["Level 3", "Level 4"]
  | "Level 3" => ["Level 4", "Level 5"]
  | "Level 4" => ["Level 5", "Level 6"]
  | "Level 5" => ["Level 6", "Level 7"]
  | "Level 6" => ["Level 7", "Level 8"]
  | "Level 7" => ["Level 8", "Level 9"]
  | "Level 8" => ["Level 9", "Level 10"]
  | "Level 9" => ["Level 10", "Complete"]
  | "Level 10" => ["Complete"]
  | _ => []

def nodeLevels : List String :=
  ["Start", "Level 1", "Level 2", "Level 3", "Level 4", "Level 5",
   "Level 6", "Level 7", "Level 8", "Level 9", "Level 10"]

def determineRollbackNode (currentNode _invalidNode : String) : String :=
  match nodeLevels.indexOf? currentNode with
  | some (i + 1) => nodeLevels.getD i "Start"
  | _ => "Start"

def ExceptionHandler.validateNodeJump (config : ExceptionHandlingConfig)
    (currentSessionNode proposedNode : String) : NodeJumpValidation :=
  if config.nodeJumpValidationEnabled = false then
    { isValid := true, requiresRollback := false }
  else
    let validNextNodes := validProgressions currentSessionNode
    if validNextNodes.contains proposedNode then
      { isValid := true, requiresRollback := false }
    else
      { isValid := false,
        expectedNode := validNextNodes.head?,
        actualNode := some proposedNode,
        requiresRollback := true,
        rollbackToNode := some (determineRollbackNode currentSessionNode proposedNode) }

/-! ## Theorems for C1 and C10 -/

/-- C1: the claim states that node-jump validation succeeds exactly when
the proposed node is the current node's win or loss edge of the static
decision graph.  The code instead compares digit-stripped "levels":
"1-0" parses as level 10, so the legitimate win-edge transition
Start → 1-0 is flagged for rollback, while Start → WIN — not an edge at
all — passes.  The exception-handler validator likewise rejects
Start → 1-0 because its progression table only knows "Level N" names.
This theorem evaluates the code at those failing inputs. -/
theorem claim_C1_node_jump_ignores_edge_table :
    (decisionTree "Start").map DecisionNode.win = some (some "1-0") ∧
    (validateNodeJump "Start" "1-0").isValid = false ∧
    (validateNodeJump "Start" "1-0").requiresRollback = true ∧
    isGraphEdge "Start" "WIN" = false ∧
    (validateNodeJump "Start" "WIN").isValid = true ∧
    (ExceptionHandler.validateNodeJump defaultExceptionHandlingConfig
      "Start" "1-0").isValid = false := by
  decide

lemma jsRound_nonneg {x : ℚ} (hx : 0 ≤ x) : 0 ≤ jsRound x := by
  unfold jsRound
  have h : (0 : ℚ) ≤ x + 1 / 2 := by linarith
  exact_mod_cast Int.floor_nonneg.mpr h

lemma parseFloatQ_of_parts {s : String} {i f k : Nat}
    (h : parseFloatParts s = some (false, i, f, k)) :
    parseFloatQ s = some ((i : ℚ) + (f : ℚ) / 10 ^ k) := by
  simp [parseFloatQ, h]

lemma calculateValue_of_parts {v : String} {i f k : Nat}
    (h : parseFloatParts (stripPercentSign v) = some (false, i, f, k))
    {amount : ℚ} (ha : 0 ≤ amount) :
    ∃ p : ℚ, parseFloatQ (stripPercentSign v) = some p ∧ 0 ≤ p ∧
      calculateValue v amount = some (jsRound (p / 100 * amount)) ∧
      0 ≤ jsRound (p / 100 * amount) := by
  refine ⟨(i : ℚ) + (f : ℚ) / 10 ^ k, parseFloatQ_of_parts h, by positivity, ?_, ?_⟩
  · rw [calculateValue, parseFloatQ_of_parts h]
    rfl
  · exact jsRound_nonneg (mul_nonneg (by positivity) ha)

/-- Boolean check that a stake string parses, after sign stripping, to a
non-negative (sign-free) decimal. -/
def parsesNonneg (v : String) : Bool :=
  match parseFloatParts (stripPercentSign v) with
  | some (false, _, _, _) => true
  | _ => false

lemma calculateValue_of_parsesNonneg {v : String} (h : parsesNonneg v = true)
    {amount : ℚ} (ha : 0 ≤ amount) :
    ∃ p : ℚ, parseFloatQ (stripPercentSign v) = some p ∧ 0 ≤ p ∧
      calculateValue v amount = some (jsRound (p / 100 * amount)) ∧
      0 ≤ jsRound (p / 100 * amount) := by
  unfold parsesNonneg at h
  rcases heq : parseFloatParts (stripPercentSign v) with _ | ⟨neg, i, f, k⟩
  · rw [heq] at h
    simp at h
  · rw [heq] at h
    cases neg
    · exact calculateValue_of_parts heq ha
    · simp at h

/-- C10: for every stake-percentage string of the decision tree and
every non-negative amount, calculateValue strips the '%', '+' and '-'
characters, parses the remainder to a non-negative number p, and
returns Math.round((p / 100) * amount), a non-negative whole number;
in particular the terminal loss value "-3.31%" yields the same
positive amount as "+3.31%" — the sign is discarded. -/
theorem claim_C10_calculateValue_sign_discarded :
    (∀ v ∈ stakePercentageStrings, ∀ amount : ℚ, 0 ≤ amount →
      ∃ p : ℚ, parseFloatQ (stripPercentSign v) = some p ∧ 0 ≤ p ∧
        calculateValue v amount = some (jsRound (p / 100 * amount)) ∧
        0 ≤ jsRound (p / 100 * amount)) ∧
    (∀ amount : ℚ, calculateValue "-3.31%" amount = calculateValue "+3.31%" amount) := by
  constructor
  · intro v hv amount ha
    fin_cases hv <;> exact calculateValue_of_parsesNonneg (by decide) ha
  · intro amount
    have h : parseFloatParts (stripPercentSign "-3.31%") =
        parseFloatParts (stripPercentSign "+3.31%") := by decide
    rw [calculateValue, calculateValue, parseFloatQ, parseFloatQ, h]

/-- Witness for C10 at the Start node's stake string and amount 3. -/
theorem claim_C10_witness :
    "0.65%" ∈ stakePercentageStrings ∧ (0 : ℚ) ≤ 3 ∧
    (∃ p : ℚ, parseFloatQ (stripPercentSign "0.65%") = some p ∧ 0 ≤ p ∧
      calculateValue "0.65%" 3 = some (jsRound (p / 100 * 3)) ∧
      0 ≤ jsRound (p / 100 * 3)) :=
  ⟨by decide, by norm_num,
    claim_C10_calculateValue_sign_discarded.1 "0.65%" (by decide) 3 (by norm_num)⟩

/-! ## Broker cost model and stake solver (src/lib/broker-cost-service.ts)

getRealTimeCostData samples the live spread twice (once for
currentSpread, once inside calculateSpreadToSL) and caches the snapshot
for 30 seconds, so one snapshot serves every iteration of a single
stake solve; the two samples are passed in as parameters.  The
diagnostic validation/warning fields of CostCalculationResult are not
consumed by the solver and are omitted. -/

inductive CommissionType
  | fixed
  | percentage
  | perLot
deriving DecidableEq

structure BrokerCostConfig where
  brokerId : String
  commissionType : CommissionType
  commissionValue : ℚ
  minCommission : ℚ
  maxCommission : ℚ
  defaultSpread : ℚ
  maxAllowedSpread : ℚ
  spreadMultiplier : ℚ
  longSwapRate : ℚ
  shortSwapRate : ℚ
  maxSpreadToSL : ℚ

def demoBrokerConfig : BrokerCostConfig :=
  { brokerId := "demo", commissionType := .fixed, commissionValue := 5,
    minCommission := 5, maxCommission := 5, defaultSpread := 3,
    maxAllowedSpread := 10, spreadMultiplier := 3 / 2, longSwapRate := 0,
    shortSwapRate := 0, maxSpreadToSL := 5 }

structure RealTimeCostData where
  currentSpread : ℚ
  currentCommission : ℚ
  spreadToSL : ℚ
  effectiveSLDistance : ℚ

def getRealTimeCostData (cfg : BrokerCostConfig)
    (spreadSample spreadToSLSample : ℚ) : RealTimeCostData :=
  { currentSpread := spreadSample,
    currentCommission := cfg.commissionValue,
    spreadToSL := spreadToSLSample * cfg.spreadMultiplier,
    effectiveSLDistance := spreadToSLSample * cfg.spreadMultiplier }

/-- The demo snapshot with both spread samples at the configured default
of 3 pips (the spec's demo cost configuration). -/
def demoCostData : RealTimeCostData := getRealTimeCostData demoBrokerConfig 3 3

def calculateCommission (cfg : BrokerCostConfig) (amount price : ℚ) : ℚ :=
  match cfg.commissionType with
  | .fixed => max cfg.minCommission (min cfg.maxCommission cfg.commissionValue)
  | .percentage => max cfg.minCommission (min cfg.maxCommission (amount * cfg.commissionValue / 100))
  | .perLot => max cfg.minCommission (min cfg.maxCommission (amount / (price * 100000) * cfg.commissionValue))

def calculateSpreadCost (amount spread price : ℚ) : ℚ :=
  amount * (spread / 10000 * price / price)

def calculateSwapCost (cfg : BrokerCostConfig) (amount price days : ℚ) : ℚ :=
  amount / (price * 100000) * cfg.longSwapRate * days

def calculateMaxAllowedStake (cd : RealTimeCostData) (nominalAmount : ℚ) : ℚ :=
  let maxRiskPercentage : ℚ := 1 / 100
  let adjustedSLDistance := cd.effectiveSLDistance + cd.spreadToSL
  min (nominalAmount * maxRiskPercentage / (adjustedSLDistance / 10000)) (nominalAmount * (1 / 10))

/-- Ratio priceDifference / entryPrice used throughout the solver.
It is zero exactly when entryPrice = targetPrice (the claim C4 edge
case); the source divides by it with no guard. -/
def priceMoveRatio (entryPrice targetPrice : ℚ) : ℚ :=
  |targetPrice - entryPrice| / entryPrice

structure CostCalculationResult where
  nominalAmount : ℚ
  commission : ℚ
  spreadCost : ℚ
  swapCost : ℚ
  totalCosts : ℚ
  netAmount : ℚ
  effectiveSLDistance : ℚ
  adjustedStake : ℚ
  maxAllowedStake : ℚ

def calculateTradeCosts (cfg : BrokerCostConfig) (cd : RealTimeCostData)
    (nominalAmount entryPrice targetPrice stopPrice targetNetProfit : ℚ) :
    CostCalculationResult :=
  let commission := calculateCommission cfg nominalAmount entryPrice
  let spreadCost := calculateSpreadCost nominalAmount cd.currentSpread entryPrice
  let swapCost := calculateSwapCost cfg nominalAmount entryPrice 1
  let totalCosts := commission + spreadCost + swapCost
  let requiredGrossProfit := targetNetProfit + totalCosts
  let requiredStake := requiredGrossProfit / priceMoveRatio entryPrice targetPrice
  let maxAllowedStake := calculateMaxAllowedStake cd nominalAmount
  let adjustedStake := min requiredStake maxAllowedStake
  let finalCommission := calculateCommission cfg adjustedStake entryPrice
  let finalSpreadCost := calculateSpreadCost adjustedStake cd.currentSpread entryPrice
  let finalSwapCost := calculateSwapCost cfg adjustedStake entryPrice 1
  let finalTotalCosts := finalCommission + finalSpreadCost + finalSwapCost
  { nominalAmount := nominalAmount, commission := finalCommission,
    spreadCost := finalSpreadCost, swapCost := finalSwapCost,
    totalCosts := finalTotalCosts, netAmount := adjustedStake,
    effectiveSLDistance := cd.effectiveSLDistance,
    adjustedStake := adjustedStake, maxAllowedStake := maxAllowedStake }

/-- The total venue cost of holding stake for one day, as the cost model
prices it; equals the totalCosts field that calculateTradeCosts reports
for a result whose netAmount is that stake. -/
def tradeCostsOf (cfg : BrokerCostConfig) (cd : RealTimeCostData)
    (stake entryPrice : ℚ) : ℚ :=
  calculateCommission cfg stake entryPrice +
    calculateSpreadCost stake cd.currentSpread entryPrice +
    calculateSwapCost cfg stake entryPrice 1

lemma calculateTradeCosts_totalCosts (cfg : BrokerCostConfig)
    (cd : RealTimeCostData) (s e t st tp : ℚ) :
    (calculateTradeCosts cfg cd s e t st tp).totalCosts =
      tradeCostsOf cfg cd (calculateTradeCosts cfg cd s e t st tp).netAmount e := rfl

/-- The net profit the cost model assigns to a given stake: gross
price-move profit minus total costs at that stake. -/
def actualNetProfitAt (cfg : BrokerCostConfig) (cd : RealTimeCostData)
    (stake entryPrice targetPrice : ℚ) : ℚ :=
  stake * priceMoveRatio entryPrice targetPrice - tradeCostsOf cfg cd stake entryPrice

structure StakeAdjustment where
  adjustedStake : ℚ
  expectedNetProfit : ℚ
  totalCosts : ℚ
deriving DecidableEq

/-- The while loop of adjustStakeForNetProfit, with the remaining
iteration budget as fuel (the source caps iterations at 10).  Fuel 0 is
the post-loop final calculation; the branch that caps the stake at
maxRiskAmount breaks out to the same final calculation.  The scaling
division targetNetProfit / actualNetProfit is total division on ℚ
(0 when actualNetProfit = 0), where JavaScript produces ±Infinity or
NaN; no theorem below inspects the stake value after such a division. -/
def adjustLoop (cfg : BrokerCostConfig) (cd : RealTimeCostData)
    (targetNetProfit entryPrice targetPrice stopPrice maxRiskAmount : ℚ) :
    Nat → ℚ → StakeAdjustment
  | 0, currentStake =>
    let finalCostResult :=
      calculateTradeCosts cfg cd currentStake entryPrice targetPrice stopPrice targetNetProfit
    { adjustedStake := finalCostResult.netAmount,
      expectedNetProfit := targetNetProfit,
      totalCosts := finalCostResult.totalCosts }
  | fuel + 1, currentStake =>
    let costResult :=
      calculateTradeCosts cfg cd currentStake entryPrice targetPrice stopPrice targetNetProfit
    let actualNetProfit :=
      costResult.netAmount * priceMoveRatio entryPrice targetPrice - costResult.totalCosts
    if |actualNetProfit - targetNetProfit| ≤ 1 / 100 then
      { adjustedStake := costResult.netAmount,
        expectedNetProfit := actualNetProfit,
        totalCosts := costResult.totalCosts }
    else
      let adjustmentFactor := targetNetProfit / actualNetProfit
      let nextStake := currentStake * adjustmentFactor
      if nextStake > maxRiskAmount then
        let finalCostResult :=
          calculateTradeCosts cfg cd maxRiskAmount entryPrice targetPrice stopPrice targetNetProfit
        { adjustedStake := finalCostResult.netAmount,
          expectedNetProfit := targetNetProfit,
          totalCosts := finalCostResult.totalCosts }
      else
        adjustLoop cfg cd targetNetProfit entryPrice targetPrice stopPrice maxRiskAmount fuel nextStake

/-- adjustStakeForNetProfit.  The source wraps the computation in
try/catch and rethrows; its body contains no throw site of its own
(every helper catches its failures internally and falls back to
defaults), so the only error channel is pass-through, modeled by the
Except return type. -/
def adjustStakeForNetProfit (cfg : BrokerCostConfig) (cd : RealTimeCostData)
    (targetNetProfit entryPrice targetPrice stopPrice maxRiskAmount : ℚ) :
    Except String StakeAdjustment :=
  .ok (adjustLoop cfg cd targetNetProfit entryPrice targetPrice stopPrice maxRiskAmount
        10 (targetNetProfit / (1 / 100)))

/-! ## Theorems for C3 and C4 -/

lemma adjustLoop_spec (cfg : BrokerCostConfig) (cd : RealTimeCostData)
    (tp e t st cap : ℚ) :
    ∀ (fuel : ℕ) (stake : ℚ),
      ∃ s : ℚ,
        ((adjustLoop cfg cd tp e t st cap fuel stake).adjustedStake
            = (calculateTradeCosts cfg cd s e t st tp).netAmount ∧
          (adjustLoop cfg cd tp e t st cap fuel stake).totalCosts
            = (calculateTradeCosts cfg cd s e t st tp).totalCosts) ∧
        ((adjustLoop cfg cd tp e t st cap fuel stake).expectedNetProfit = tp ∨
          ((adjustLoop cfg cd tp e t st cap fuel stake).expectedNetProfit
              = actualNetProfitAt cfg cd
                  (adjustLoop cfg cd tp e t st cap fuel stake).adjustedStake e t ∧
            |(adjustLoop cfg cd tp e t st cap fuel stake).expectedNetProfit - tp| ≤ 1 / 100)) := by
  intro fuel
  induction fuel with
  | zero =>
    intro stake
    exact ⟨stake, ⟨rfl, rfl⟩, Or.inl rfl⟩
  | succ n ih =>
    intro stake
    simp only [adjustLoop]
    split_ifs with h1 h2
    · refine ⟨stake, ⟨rfl, rfl⟩, Or.inr ⟨?_, h1⟩⟩
      show _ * priceMoveRatio e t - _ = actualNetProfitAt cfg cd _ e t
      rw [actualNetProfitAt, calculateTradeCosts_totalCosts]
    · exact ⟨cap, ⟨rfl, rfl⟩, Or.inl rfl⟩
    · exact ih _

/-- C3 (amended): for entryPrice ≠ targetPrice the solver's returned
stake is always the min(requiredStake, maxAllowedStake) clamp that
calculateTradeCosts computes at some internal iterate, along with that
iterate's recomputed total costs.  The reported expectedNetProfit is
within tolerance of the target only when the loop exits through its
convergence branch (right disjunct); in the cap-bound and
iteration-exhausted exits the function merely echoes the target
(left disjunct) and the returned stake is the clamp at the final
internal stake — in general it neither meets the tolerance nor equals
maxRiskCap, as the counterexample shows. -/
theorem claim_C3_stake_solver_amended (cfg : BrokerCostConfig)
    (cd : RealTimeCostData) (tp e t st cap : ℚ) (h : e ≠ t) :
    ∃ (s : ℚ) (r : StakeAdjustment),
      adjustStakeForNetProfit cfg cd tp e t st cap = .ok r ∧
      r.adjustedStake = (calculateTradeCosts cfg cd s e t st tp).netAmount ∧
      r.totalCosts = (calculateTradeCosts cfg cd s e t st tp).totalCosts ∧
      (r.expectedNetProfit = tp ∨
        (r.expectedNetProfit = actualNetProfitAt cfg cd r.adjustedStake e t ∧
          |r.expectedNetProfit - tp| ≤ 1 / 100)) := by
  obtain ⟨s, ⟨h1, h2⟩, h3⟩ := adjustLoop_spec cfg cd tp e t st cap 10 (tp / (1 / 100))
  exact ⟨s, _, rfl, h1, h2, h3⟩

/-- Witness for the amended C3 at the spec's demo inputs. -/
theorem claim_C3_amended_witness :
    (45000 : ℚ) ≠ 46000 ∧
    ∃ (s : ℚ) (r : StakeAdjustment),
      adjustStakeForNetProfit demoBrokerConfig demoCostData 650 45000 46000 44500 10000 = .ok r ∧
      r.adjustedStake = (calculateTradeCosts demoBrokerConfig demoCostData s 45000 46000 44500 650).netAmount ∧
      r.totalCosts = (calculateTradeCosts demoBrokerConfig demoCostData s 45000 46000 44500 650).totalCosts ∧
      (r.expectedNetProfit = 650 ∨
        (r.expectedNetProfit = actualNetProfitAt demoBrokerConfig demoCostData r.adjustedStake 45000 46000 ∧
          |r.expectedNetProfit - 650| ≤ 1 / 100)) :=
  ⟨by norm_num,
    claim_C3_stake_solver_amended demoBrokerConfig demoCostData 650 45000 46000 44500 10000
      (by norm_num)⟩

set_option maxHeartbeats 1600000 in
/-- C3 counterexample: with the demo cost configuration (fixed $5
commission, 3-pip spread), targetNetProfit = 650, entry = 45000,
target = 46000, maxRiskCap = 10000, the first iteration is not within
tolerance, the rescaled stake exceeds the cap, and the final
calculation returns the clamp min(requiredStake, maxAllowedStake) at
maxRiskCap, namely 1000 — whose recomputed net profit (≈ 16.92) is
more than 0.01 away from 650, and which is not equal to the cap
10000.  This refutes the claim's disjunction. -/
theorem claim_C3_counterexample :
    adjustStakeForNetProfit demoBrokerConfig demoCostData 650 45000 46000 44500 10000 =
      .ok { adjustedStake := 1000, expectedNetProfit := 650, totalCosts := 53 / 10 } ∧
    ¬ |actualNetProfitAt demoBrokerConfig demoCostData 1000 45000 46000 - 650| ≤ 1 / 100 ∧
    (1000 : ℚ) ≠ 10000 := by
  refine ⟨?_, ?_, by norm_num⟩
  · have h1 : adjustLoop demoBrokerConfig demoCostData 650 45000 46000 44500 10000 10 65000 =
        adjustLoop demoBrokerConfig demoCostData 650 45000 46000 44500 10000 (9 + 1) 65000 := rfl
    have h2 : (650 : ℚ) / (1 / 100) = 65000 := by norm_num
    rw [adjustStakeForNetProfit, h2, h1, adjustLoop]
    norm_num [calculateTradeCosts, calculateMaxAllowedStake, calculateCommission,
      calculateSpreadCost, calculateSwapCost, priceMoveRatio, demoBrokerConfig,
      demoCostData, getRealTimeCostData, min_def, max_def]
    rw [abs_of_nonneg (by norm_num : (0 : ℚ) ≤ 92251 / 180)]
    norm_num
  · norm_num [actualNetProfitAt, tradeCostsOf, priceMoveRatio,
      calculateCommission, calculateSpreadCost, calculateSwapCost,
      demoBrokerConfig, demoCostData, getRealTimeCostData]
    rw [abs_of_nonneg (by norm_num : (0 : ℚ) ≤ 56977 / 90)]
    norm_num

/-- C4: the claim requires a fast domain error when entryPrice equals
targetPrice.  priceMoveRatio is indeed 0 there, but the solver has no
guard: calculateTradeCosts divides requiredGrossProfit by that zero
ratio (JavaScript produces Infinity, not an exception), the loop keeps
iterating, and adjustStakeForNetProfit returns a normal result for
every input — it never raises any error, in particular no domain
error.  The second conjunct is provable structurally because neither
adjustStakeForNetProfit, adjustLoop nor calculateTradeCosts contains a
single throw site. -/
theorem claim_C4_no_domain_error_at_equal_prices :
    priceMoveRatio 45000 45000 = 0 ∧
    ∀ (cfg : BrokerCostConfig) (cd : RealTimeCostData) (tp e t st cap : ℚ),
      (adjustStakeForNetProfit cfg cd tp e t st cap).isOk = true :=
  ⟨by norm_num [priceMoveRatio], fun _ _ _ _ _ _ _ => rfl⟩

/-! ## Session state machine: trade-result processing
(trade-result route, src/unnamed/part_005; session creation in
app/api/webhook/trade-signal/route.ts and the SignalProcessor of
src/lib/signal-processor.ts)

A Session models one sessions row together with its session_steps rows.
Timestamps are irrelevant to every claim below and are omitted from the
step record. -/

structure SessionStep where
  step_number : Nat
  node_name : String
  action : Option String := none
  stake_value : Option ℚ := none
  step_type : Option String := none
  execution_status : Option String := none
  note : String := ""
  trade_result_actual : Option ℚ := none

structure Session where
  session_id : String
  current_node : String
  final_total : ℚ
  is_completed : Bool
  path_summary : String
  initial_amount : ℚ
  steps : List SessionStep

inductive TradeOutcome
  | win
  | loss
deriving DecidableEq

def TradeOutcome.upper : TradeOutcome → String
  | .win => "WIN"
  | .loss => "LOSS"

structure TradeResultCallback where
  trade_id : String
  session_id : String
  result : TradeOutcome
  exit_price : ℚ
  profit_loss : ℚ
  exit_reason : String
  exited_at : Int

structure TradeResultData where
  session_id : String := ""
  current_node : String := ""
  final_total : ℚ := 0
  is_completed : Bool := false
  next_action : String := ""

structure TradeResultResponse where
  success : Bool
  message : String := ""
  error : Option String := none
  data : Option TradeResultData := none

/-- SELECT COALESCE(MAX(step_number), 0) + 1. -/
def nextStepNumber (steps : List SessionStep) : Nat :=
  (steps.map SessionStep.step_number).foldl max 0 + 1

/-- recordResultStep of the trade-result route: appends a RESULT step
whose trade_result_actual is the callback's profit_loss. -/
def recordResultStep (cb : TradeResultCallback) (steps : List SessionStep) :
    List SessionStep :=
  steps ++ [{ step_number := nextStepNumber steps,
              node_name := cb.result.upper,
              step_type := some "RESULT",
              execution_status := some "COMPLETED",
              note := "Trade " ++ cb.result.upper,
              trade_result_actual := some cb.profit_loss }]

/-- processTradeResult of the trade-result route.  Returns the HTTP
response together with the session as it stands afterwards (unchanged
on every failure path: each throw happens before any session write).
On a requiresRollback verdict the source calls
exceptionHandler.handleNodeJumpValidation — a method that does not
exist on ExceptionHandler — so JavaScript raises a TypeError that the
surrounding catch turns into a failure response with no mutation. -/
def processTradeResult (cb : TradeResultCallback) (s : Session) :
    TradeResultResponse × Session :=
  if s.is_completed then
    ({ success := false,
       error := some ("Session " ++ cb.session_id ++ " is already completed") }, s)
  else
    match decisionTree s.current_node with
    | none =>
      ({ success := false,
         error := some ("Invalid decision tree node: " ++ s.current_node) }, s)
    | some node =>
      let newTotal := s.final_total + cb.profit_loss
      let nextNode := match cb.result with
        | .win => node.win.getD "End"
        | .loss => node.loss.getD "End"
      let isCompleted : Bool := nextNode = "End" || node.final
      let nextAction :=
        if nextNode = "End" || node.final then "SESSION COMPLETED"
        else match cb.result with
          | .win => "WIN - Moving to next level"
          | .loss => "LOSS - Moving to next level"
      let nodeJumpValidation := validateNodeJump s.current_node nextNode
      if nodeJumpValidation.requiresRollback then
        ({ success := false,
           error := some "exceptionHandler.handleNodeJumpValidation is not a function" }, s)
      else
        let newSteps := recordResultStep cb s.steps
        let newPathSummary :=
          if s.path_summary ≠ "" then s.path_summary ++ " → " ++ nextNode
          else s.current_node ++ " → " ++ nextNode
        ({ success := true,
           message := "Trade result processed successfully. " ++ nextAction,
           data := some { session_id := cb.session_id, current_node := nextNode,
                          final_total := newTotal, is_completed := isCompleted,
                          next_action := nextAction } },
         { s with current_node := nextNode, final_total := newTotal,
                  is_completed := isCompleted, path_summary := newPathSummary,
                  steps := newSteps })

/-- Session creation of the webhook route (createNewSession in
app/api/webhook/trade-signal/route.ts): final_total starts at 0 and an
initial step with the node's stake is inserted.  The route only ever
calls this with currentNode = "Start"; the node lookup inside the step
insert is total in the model via getD. -/
def createNewSession (sessionId symbol currentNode : String)
    (initialAmount : ℚ) : Session :=
  { session_id := sessionId, current_node := currentNode, final_total := 0,
    is_completed := false, path_summary := currentNode,
    initial_amount := initialAmount,
    steps := [{ step_number := 1, node_name := currentNode,
                action := some "start",
                stake_value := (calculateValue
                  (((decisionTree currentNode).map DecisionNode.value).getD "")
                  initialAmount).map fun z => (z : ℚ),
                note := "Auto-created from TradingView signal: " ++ symbol }] }

/-- Session creation of the SignalProcessor
(SignalProcessor.createNewSession in src/lib/signal-processor.ts):
the INSERT sets final_total to the initialAmount, not 0, and inserts no
initial step. -/
def SignalProcessor.createNewSession (sessionId symbol currentNode : String)
    (initialAmount : ℚ) : Session :=
  { session_id := sessionId, current_node := currentNode,
    final_total := initialAmount, is_completed := false,
    path_summary := currentNode, initial_amount := initialAmount, steps := [] }

/-- Sum of the signed results recorded in the session's path history
(the trade_result_actual of its RESULT steps). -/
def resultSum (steps : List SessionStep) : ℚ :=
  (steps.filterMap fun st =>
    if st.step_type = some "RESULT" then st.trade_result_actual else none).sum

def applyTradeResults (s : Session) (cbs : List TradeResultCallback) : Session :=
  cbs.foldl (fun s cb => (processTradeResult cb s).2) s

/-! ## Theorems for C5 and C6 -/

lemma resultSum_recordResultStep (cb : TradeResultCallback)
    (steps : List SessionStep) :
    resultSum (recordResultStep cb steps) = resultSum steps + cb.profit_loss := by
  unfold resultSum recordResultStep
  rw [List.filterMap_append]
  simp

lemma processTradeResult_drift (cb : TradeResultCallback) (s : Session) :
    (processTradeResult cb s).2.final_total
        - resultSum (processTradeResult cb s).2.steps
      = s.final_total - resultSum s.steps := by
  unfold processTradeResult
  cases h1 : s.is_completed with
  | true => simp [h1]
  | false =>
    simp only [h1]
    rcases hnode : decisionTree s.current_node with _ | node
    · simp [hnode]
    · simp only [hnode]
      by_cases h2 : (validateNodeJump s.current_node
          (match cb.result with
            | .win => node.win.getD "End"
            | .loss => node.loss.getD "End")).requiresRollback
      · simp [h2]
      · simp [h2, resultSum_recordResultStep]

lemma applyTradeResults_drift (cbs : List TradeResultCallback) :
    ∀ s : Session,
      (applyTradeResults s cbs).final_total
          - resultSum (applyTradeResults s cbs).steps
        = s.final_total - resultSum s.steps := by
  induction cbs with
  | nil => intro s; rfl
  | cons cb cbs ih =>
    intro s
    show (applyTradeResults (processTradeResult cb s).2 cbs).final_total
        - resultSum (applyTradeResults (processTradeResult cb s).2 cbs).steps
      = s.final_total - resultSum s.steps
    rw [ih, processTradeResult_drift]

/-- Session sitting at the non-terminal node 4-5, whose win edge is the
terminal node WIN. -/
def sessionAt45 : Session :=
  { session_id := "ses45", current_node := "4-5", final_total := 0,
    is_completed := false, path_summary := "4-5", initial_amount := 100000,
    steps := [] }

def winCallback45 : TradeResultCallback :=
  { trade_id := "t45", session_id := "ses45", result := .win,
    exit_price := 46000, profit_loss := 650, exit_reason := "target_reached",
    exited_at := 0 }

/-- C5: the claim states that an outcome moving a session onto a
terminal node marks it completed in the same update.  The code tests
nextNode === 'End' (never true: every non-terminal node has both edges
defined) or the final flag of the CURRENT node instead of the next one,
so winning at 4-5 moves the session to the terminal node WIN with
is_completed still false — outcome-driven mutation is not frozen
there.  This theorem evaluates the code at that input: the update
succeeds, currentNodeId becomes the terminal node WIN, yet the session
is left uncompleted. -/
theorem claim_C5_terminal_move_leaves_session_uncompleted :
    (processTradeResult winCallback45 sessionAt45).1.success = true ∧
    (processTradeResult winCallback45 sessionAt45).2.current_node = "WIN" ∧
    (processTradeResult winCallback45 sessionAt45).2.is_completed = false ∧
    (decisionTree "WIN").map DecisionNode.final = some true := by
  refine ⟨?_, ?_, ?_, by decide⟩ <;> rfl

lemma resultSum_createNewSession (sessionId symbol currentNode : String)
    (initialAmount : ℚ) :
    resultSum (createNewSession sessionId symbol currentNode initialAmount).steps = 0 := by
  simp [createNewSession, resultSum]

/-- C6 (amended): applying any sequence of trade-result callbacks never
changes the difference between the stored final_total and the sum of
the signed results recorded in the RESULT steps.  Hence sessions
created by the webhook route's createNewSession (final_total
initialized to 0) satisfy the claimed invariant
final_total = sum of recorded results, while sessions created by
SignalProcessor.createNewSession (final_total initialized to the
initial amount) carry a permanent offset: final_total =
initialAmount + sum of recorded results. -/
theorem claim_C6_running_total_amended (sessionId symbol currentNode : String)
    (initialAmount : ℚ) (cbs : List TradeResultCallback) :
    (applyTradeResults (createNewSession sessionId symbol currentNode initialAmount)
        cbs).final_total
      = resultSum (applyTradeResults
          (createNewSession sessionId symbol currentNode initialAmount) cbs).steps ∧
    (applyTradeResults
        (SignalProcessor.createNewSession sessionId symbol currentNode initialAmount)
        cbs).final_total
      = initialAmount + resultSum (applyTradeResults
          (SignalProcessor.createNewSession sessionId symbol currentNode initialAmount)
          cbs).steps := by
  constructor
  · have h := applyTradeResults_drift cbs
      (createNewSession sessionId symbol currentNode initialAmount)
    rw [resultSum_createNewSession] at h
    have h0 : (createNewSession sessionId symbol currentNode initialAmount).final_total = 0 := rfl
    rw [h0] at h
    linarith
  · have h := applyTradeResults_drift cbs
      (SignalProcessor.createNewSession sessionId symbol currentNode initialAmount)
    have h0 : (SignalProcessor.createNewSession sessionId symbol currentNode
        initialAmount).final_total = initialAmount := rfl
    have h1 : resultSum (SignalProcessor.createNewSession sessionId symbol currentNode
        initialAmount).steps = 0 := rfl
    rw [h0, h1] at h
    linarith

def spSession : Session :=
  SignalProcessor.createNewSession "ses1" "BTCUSDT" "Start" 100000

def lossCallbackStart : TradeResultCallback :=
  { trade_id := "t1", session_id := "ses1", result := .loss,
    exit_price := 44500, profit_loss := -650, exit_reason := "stop_reached",
    exited_at := 0 }

/-- C6 counterexample: a session created by
SignalProcessor.createNewSession with initial amount 100000 accepts a
loss outcome at Start (its validation passes: Start → 0-1), yet its
stored final_total differs from the sum of the recorded path-history
results — the offset is the creation-time final_total of 100000, so
the claimed no-drift invariant is false as stated. -/
theorem claim_C6_counterexample :
    (processTradeResult lossCallbackStart spSession).1.success = true ∧
    (processTradeResult lossCallbackStart spSession).2.final_total
      ≠ resultSum (processTradeResult lossCallbackStart spSession).2.steps := by
  refine ⟨rfl, ?_⟩
  have h := processTradeResult_drift lossCallbackStart spSession
  have h2 : spSession.final_total = 100000 := rfl
  have h3 : resultSum spSession.steps = 0 := rfl
  rw [h2, h3] at h
  intro heq
  rw [heq] at h
  norm_num at h

/-! ## Overnight guardian (src/lib/overnight-trade-manager.ts)

The manager's in-memory registry maps trade ids to TradeStatus; the
scan checkOvernightTrades iterates the active trades and, for those
with overnightCloseEnabled and more than 16 hours open, only emits a
log line — the source comments read "Here you would implement the
actual closing logic" and "For now, just log the action".  There is no
daily cutoff instant, no forced market closure, no status change, and
no interaction with sessions anywhere in the function; the model
returns the log lines it would print together with the (unchanged)
registry.  Times are epoch milliseconds. -/

structure TradeStatus where
  trade_id : String
  status : String
  overnightCloseEnabled : Bool
  entry_time : Int
  symbol : String
  current_node : String

def getActiveTrades (trades : List TradeStatus) : List TradeStatus :=
  trades.filter fun t => t.status = "active"

def hoursOpen (now : Int) (t : TradeStatus) : ℚ :=
  ((now - t.entry_time : Int) : ℚ) / (1000 * 60 * 60)

def checkOvernightTrades (now : Int) (trades : List TradeStatus) :
    List String × List TradeStatus :=
  let logs := (getActiveTrades trades).filterMap fun t =>
    if t.overnightCloseEnabled then
      if hoursOpen now t > 16 then some t.trade_id else none
    else none
  (logs, trades)

/-- C2: the claim states that an overnight scan past the daily cutoff
force-closes every active, overnight-close-enabled registration and
rolls each owning session back, leaving none active.  The scan is in
fact a no-op on all state: for every simulated time — however far past
any cutoff — the registry after the scan equals the registry before
it, and in particular every active, overnight-enabled registration is
still active and no session is touched (the function does not receive
or return any session state). -/
theorem claim_C2_overnight_scan_closes_nothing :
    ∀ (now : Int) (trades : List TradeStatus),
      (checkOvernightTrades now trades).2 = trades ∧
      ((checkOvernightTrades now trades).2.filter fun t =>
          t.status = "active" && t.overnightCloseEnabled) =
        trades.filter fun t => t.status = "active" && t.overnightCloseEnabled :=
  fun _ _ => ⟨rfl, rfl⟩

/-! ## Execution coordinator
(TradingPlatformService.executeTrade and isRetryableError in
src/lib/trading-platform-service.ts; ExceptionHandler.handlePartialFill
in src/lib/exception-handler.ts)

The venue's per-attempt responses are a parameter
platform : attempt number → outcome.  Parameter validation failures
surface through the same catch as venue errors (their message contains
no transient substring, so they fail immediately) and are subsumed by
the failure outcome.  The executed delay before each retry is
retryDelay * 2^(attempt-1) ms; the model collects the delays actually
awaited. -/

def retryableErrors : List String :=
  ["network", "timeout", "connection", "temporary", "rate limit",
   "server error", "gateway", "service unavailable"]

def listContainsSub : List Char → List Char → Bool
  | [], needle => needle.isEmpty
  | c :: t, needle => List.isPrefixOf needle (c :: t) || listContainsSub t needle

/-- JavaScript String.prototype.includes. -/
def containsSub (hay needle : String) : Bool :=
  listContainsSub hay.data needle.data

/-- JavaScript String.prototype.toLowerCase (ASCII, which covers every
error message compared here). -/
def toLowerString (s : String) : String :=
  String.mk (s.data.map Char.toLower)

def isRetryableError (message : String) : Bool :=
  retryableErrors.any fun sub => containsSub (toLowerString message) sub

inductive PlatformOutcome
  | success (actualEntryPrice actualQuantity : ℚ)
  | failure (message : String)

structure TradeExecution where
  status : String
  error : Option String := none

structure ExecuteTradeResult where
  execution : TradeExecution
  steps : List SessionStep
  delays : List Nat

/-- recordExecutionStep of the trading platform service: appends an
EXECUTE step, always with stake_value 0. -/
def recordExecutionStep (steps : List SessionStep) (status : String) :
    List SessionStep :=
  steps ++ [{ step_number := nextStepNumber steps, node_name := "EXECUTE",
              action := some (if status = "SUCCESS" then "execute" else "failed"),
              stake_value := some 0, step_type := some "EXECUTE",
              execution_status := some status,
              note := "Trade execution: " ++ status }]

def latestExecuteStepNumber (steps : List SessionStep) : Option Nat :=
  (steps.filterMap fun st =>
    if st.step_type = some "EXECUTE" then some st.step_number else none).max?

structure PartialFillResult where
  originalAmount : ℚ
  filledAmount : ℚ
  fillPercentage : ℚ
  remainingAmount : ℚ

/-- ExceptionHandler.handlePartialFill: UPDATE the stake_value of the
EXECUTE step with the highest step_number to the filled amount.  When
no EXECUTE step exists yet the UPDATE matches zero rows and the steps
are unchanged. -/
def handlePartialFill (steps : List SessionStep)
    (originalAmount filledAmount : ℚ) : PartialFillResult × List SessionStep :=
  let fillPercentage := filledAmount / originalAmount
  let remainingAmount := originalAmount - filledAmount
  let updated := steps.map fun st =>
    if st.step_type = some "EXECUTE" ∧
        some st.step_number = latestExecuteStepNumber steps then
      { st with stake_value := some filledAmount, note := "Partial fill" }
    else st
  ({ originalAmount := originalAmount, filledAmount := filledAmount,
     fillPercentage := fillPercentage, remainingAmount := remainingAmount },
   updated)

/-- The retry loop of executeTrade, fuel = remaining loop passes
(maxRetries = 3 at entry, so the fuel-0 default is unreachable).  On a
SUCCESS outcome with a filled notional deviating more than 1% from the
requested amount, handlePartialFill runs FIRST and only then is the
execution step recorded — the ordering under test in C8. -/
def executeTradeGo (platform : Nat → PlatformOutcome)
    (tradeAmount entryPrice : ℚ) :
    Nat → Nat → List SessionStep → List Nat → ExecuteTradeResult
  | 0, _, steps, delays =>
    { execution := { status := "FAILED",
                     error := some "Unknown error after all retries" },
      steps := recordExecutionStep steps "FAILED", delays := delays }
  | fuel + 1, attempt, steps, delays =>
    match platform attempt with
    | .success actualEntryPrice actualQuantity =>
      let filledAmount := actualQuantity * actualEntryPrice
      let steps1 :=
        if actualQuantity ≠ 0 ∧ |filledAmount - tradeAmount| / tradeAmount > 1 / 100 then
          (handlePartialFill steps tradeAmount filledAmount).2
        else steps
      { execution := { status := "SUCCESS" },
        steps := recordExecutionStep steps1 "SUCCESS", delays := delays }
    | .failure message =>
      if isRetryableError message = false ∨ attempt = 3 then
        { execution := { status := "FAILED", error := some message },
          steps := recordExecutionStep steps "FAILED", delays := delays }
      else
        executeTradeGo platform tradeAmount entryPrice fuel (attempt + 1)
          steps (delays ++ [5000 * 2 ^ (attempt - 1)])

def executeTrade (platform : Nat → PlatformOutcome)
    (tradeAmount entryPrice : ℚ) (steps : List SessionStep) :
    ExecuteTradeResult :=
  executeTradeGo platform tradeAmount entryPrice 3 1 steps []

/-! ## Theorems for C8 and C9 -/

/-- The fresh session's step trail: only the initial start step. -/
def freshSessionSteps : List SessionStep :=
  [{ step_number := 1, node_name := "Start", action := some "start",
     stake_value := some 650 }]

/-- C8: the claim states that on a partial fill the stake recorded for
that execution step is overwritten with the filled amount.  In the
code, handlePartialFill runs before recordExecutionStep has inserted
the step for the current execution, so its UPDATE (targeting the
EXECUTE step with the highest step number) matches nothing on a first
execution; the step then recorded carries stake_value 0.  Evaluated at
a first execution requesting 1000 and filling 500 (a 50% deviation,
beyond the 1% threshold): the execution still reports SUCCESS, but no
step holds the filled amount 500 — the step trail ends with the
EXECUTE step at stake_value 0. -/
theorem claim_C8_partial_fill_stake_not_recorded :
    (executeTrade (fun _ => .success 1 500) 1000 1 freshSessionSteps).execution.status
      = "SUCCESS" ∧
    (executeTrade (fun _ => .success 1 500) 1000 1 freshSessionSteps).steps.map
        SessionStep.stake_value = [some 650, some 0] ∧
    |(500 : ℚ) * 1 - 1000| / 1000 > 1 / 100 := by
  refine ⟨rfl, ?_, by norm_num⟩
  norm_num [executeTrade, executeTradeGo, handlePartialFill,
    latestExecuteStepNumber, recordExecutionStep, nextStepNumber,
    freshSessionSteps]
  split_ifs <;> simp_all

/-- The claim's own list of transient substrings, verbatim from the
spec sentence (for comparison with the code's isRetryableError). -/
def specTransientSubstrings : List String :=
  ["network", "timeout", "connection", "rate-limit", "server-error",
   "gateway", "unavailable"]

/-- C9 counterexample: the claim says only messages containing one of
its listed substrings are retried and every other error fails
immediately without consuming retries.  The message "a temporary
glitch" contains none of the claim's substrings, yet the code
classifies it retryable (its list also includes "temporary") and
retries it through both backoff delays instead of failing
immediately. -/
theorem claim_C9_counterexample :
    isRetryableError "a temporary glitch" = true ∧
    specTransientSubstrings.all
      (fun sub => !containsSub "a temporary glitch" sub) = true ∧
    (executeTrade (fun _ => .failure "a temporary glitch") 1000 1 []).delays
      = [5000, 10000] := by
  refine ⟨by decide, by decide, by decide⟩

/-- C9 (amended): executeTrade makes at most 3 attempts; the awaited
inter-attempt delays double from 5 seconds but only 5s and then 10s
can ever occur — a 20s delay is unreachable because the third attempt
is the last.  An error is retried exactly when its lowercased message
contains one of: network, timeout, connection, temporary, "rate
limit", "server error", gateway, "service unavailable" (so "host
unavailable" alone is NOT retried, while "temporary ..." is); a
non-retryable error fails immediately with no delay, and exhausting
the retries returns FAILED retaining the last error. -/
theorem claim_C9_retry_schedule_amended :
    (∀ (platform : Nat → PlatformOutcome) (tradeAmount entryPrice : ℚ)
        (steps : List SessionStep),
      (executeTrade platform tradeAmount entryPrice steps).delays = [] ∨
      (executeTrade platform tradeAmount entryPrice steps).delays = [5000] ∨
      (executeTrade platform tradeAmount entryPrice steps).delays = [5000, 10000]) ∧
    isRetryableError "temporary outage" = true ∧
    isRetryableError "host unavailable" = false ∧
    (executeTrade (fun _ => .failure "disk corrupted") 1000 1 []).execution.status
      = "FAILED" ∧
    (executeTrade (fun _ => .failure "disk corrupted") 1000 1 []).execution.error
      = some "disk corrupted" ∧
    (executeTrade (fun _ => .failure "disk corrupted") 1000 1 []).delays = [] ∧
    (executeTrade (fun _ => .failure "network down") 1000 1 []).execution.status
      = "FAILED" ∧
    (executeTrade (fun _ => .failure "network down") 1000 1 []).execution.error
      = some "network down" ∧
    (executeTrade (fun _ => .failure "network down") 1000 1 []).delays
      = [5000, 10000] := by
  refine ⟨?_, by decide, by decide, by decide, by decide, by decide,
    by decide, by decide, by decide⟩
  intro platform tradeAmount entryPrice steps
  rcases h1 : platform 1 with p1 | m1
  · left
    simp [executeTrade, executeTradeGo, h1]
  · rcases hr1 : isRetryableError m1 with _ | _
    · left
      simp [executeTrade, executeTradeGo, h1, hr1]
    · rcases h2 : platform 2 with p2 | m2
      · right; left
        simp [executeTrade, executeTradeGo, h1, h2, hr1]
      · rcases hr2 : isRetryableError m2 with _ | _
        · right; left
          simp [executeTrade, executeTradeGo, h1, h2, hr1, hr2]
        · rcases h3 : platform 3 with p3 | m3
          · right; right
            simp [executeTrade, executeTradeGo, h1, h2, h3, hr1, hr2]
          · right; right
            simp [executeTrade, executeTradeGo, h1, h2, h3, hr1, hr2]

/-! ## Signal intake and idempotency
(SignalProcessor.validateTradeSignal and its duplicate check in
src/lib/signal-processor.ts; the POST handler and its local
processTradeSignal in src/app/api/webhook/trade-signal/route.ts)

The typed signal holds the JSON fields after parsing: in the wire
format every field is a non-empty string, so the falsy required-field
check can only fire for the string-typed fields, and the isNaN checks
cannot fire on the ℚ-typed ones; the optional confidence_score and
signal_quality fields (warnings only) are absent.  The wall clock and
the generated session id are parameters.  The steps of the route that
follow signal processing (stake solving, order execution, overnight
registration, cost recording) insert no sessions and no trade_signals
rows and are elided from the state model; the combined response
success flag is modeled up to validation and signal processing. -/

structure TradeSignal where
  action : String
  symbol : String
  timeframe : String
  time : Int
  entry : ℚ
  target : ℚ
  stop : ℚ
  id : String
  rr : ℚ
  risk : ℚ

structure ValidationResult where
  isValid : Bool
  errors : List String
  warnings : List String := []

def missingFieldErrors (sig : TradeSignal) : List String :=
  (if sig.action = "" then ["Missing required field: action"] else []) ++
  (if sig.symbol = "" then ["Missing required field: symbol"] else []) ++
  (if sig.timeframe = "" then ["Missing required field: timeframe"] else []) ++
  (if sig.id = "" then ["Missing required field: id"] else [])

def validActions : List String := ["buy", "sell", "long", "short"]

def actionErrors (sig : TradeSignal) : List String :=
  if validActions.contains (toLowerString sig.action) = false then
    ["Invalid action: " ++ sig.action] else []

def actionWarnings (sig : TradeSignal) : List String :=
  if validActions.contains (toLowerString sig.action) ∧
      sig.action ≠ toLowerString sig.action then
    ["Action normalized"] else []

def timeframeMap : String → Option String
  | "1" => some "1m"
  | "5" => some "5m"
  | "15" => some "15m"
  | "30" => some "30m"
  | "60" => some "1h"
  | "240" => some "4h"
  | "1440" => some "1d"
  | "10080" => some "1w"
  | _ => none

/-- The regex test for the canonical timeframe form, digits followed by
one of m, h, d, w. -/
def timeframeFormatOk (s : String) : Bool :=
  match s.data.reverse with
  | [] => false
  | u :: rest =>
    !rest.isEmpty && rest.all Char.isDigit &&
      (u = 'm' || u = 'h' || u = 'd' || u = 'w')

def timeframeErrors (sig : TradeSignal) : List String :=
  match timeframeMap sig.timeframe with
  | some _ => []
  | none =>
    if timeframeFormatOk sig.timeframe then []
    else ["Invalid timeframe format: " ++ sig.timeframe]

def timeframeWarnings (sig : TradeSignal) : List String :=
  match timeframeMap sig.timeframe with
  | some _ => ["Timeframe normalized"]
  | none => []

def priceErrors (sig : TradeSignal) : List String :=
  let a := toLowerString sig.action
  (if (a = "buy" ∨ a = "long") ∧ sig.target ≤ sig.entry then
    ["For BUY orders: target must be greater than entry"] else []) ++
  (if (a = "buy" ∨ a = "long") ∧ sig.stop ≥ sig.entry then
    ["For BUY orders: stop must be less than entry"] else []) ++
  (if (a = "sell" ∨ a = "short") ∧ sig.target ≥ sig.entry then
    ["For SELL orders: target must be less than entry"] else []) ++
  (if (a = "sell" ∨ a = "short") ∧ sig.stop ≤ sig.entry then
    ["For SELL orders: stop must be greater than entry"] else [])

def priceWarnings (sig : TradeSignal) : List String :=
  if |sig.target - sig.entry| / sig.entry > 1 / 10 then
    ["Large price range detected"] else []

def riskRewardErrors (sig : TradeSignal) : List String :=
  if sig.rr ≤ 0 then ["Risk-reward ratio must be positive"] else []

def riskRewardWarnings (sig : TradeSignal) : List String :=
  (if 0 < sig.rr ∧ sig.rr < 1 then ["Low risk-reward ratio"] else []) ++
  (if sig.rr > 10 then ["Very high risk-reward ratio"] else []) ++
  (if sig.risk ≤ 0 ∨ sig.risk > 5 then
    ["Risk percentage outside recommended range"] else [])

def signalAgeHours (now : Int) (sig : TradeSignal) : ℚ :=
  ((now - sig.time : Int) : ℚ) / 3600000

def ageErrors (now : Int) (sig : TradeSignal) : List String :=
  if signalAgeHours now sig > 24 then ["Signal is too old"] else []

def ageWarnings (now : Int) (sig : TradeSignal) : List String :=
  if signalAgeHours now sig ≤ 24 ∧ signalAgeHours now sig > 1 then
    ["Signal age over an hour"] else []

/-- validateSignalQuality's duplicate check against the processor's
processedSignals set: a previously seen id produces an error; a fresh
id is added to the set. -/
def signalQuality (processed : List String) (sig : TradeSignal) :
    List String × List String :=
  if processed.contains sig.id then
    (["Signal ID " ++ sig.id ++ " has already been processed"], processed)
  else
    ([], sig.id :: processed)

/-- SignalProcessor.validateTradeSignal; returns the validation result
and the updated processedSignals set (the duplicate check mutates
it). -/
def validateTradeSignal (processed : List String) (sig : TradeSignal)
    (now : Int) : ValidationResult × List String :=
  let errors0 := missingFieldErrors sig
  if errors0.isEmpty = false then
    ({ isValid := false, errors := errors0 }, processed)
  else
    let quality := signalQuality processed sig
    let errors := actionErrors sig ++ timeframeErrors sig ++ priceErrors sig ++
      riskRewardErrors sig ++ ageErrors now sig ++ quality.1
    let warnings := actionWarnings sig ++ timeframeWarnings sig ++
      priceWarnings sig ++ riskRewardWarnings sig ++ ageWarnings now sig
    ({ isValid := errors.isEmpty, errors := errors, warnings := warnings },
     quality.2)

structure TradeSignalRow where
  trade_id : String
  session_id : String

/-- The durable store visible to the webhook: the processor's in-memory
dedup set, the sessions table and the trade_signals table. -/
structure SystemState where
  processedSignals : List String
  sessions : List Session
  tradeSignals : List TradeSignalRow

def findSessionByTradeId (st : SystemState) (tradeId : String) :
    Option Session :=
  match st.tradeSignals.find? (fun r => r.trade_id = tradeId) with
  | some row => st.sessions.find? (fun s => s.session_id = row.session_id)
  | none => none

/-- saveTradeSignal: INSERT ... ON CONFLICT (trade_id) DO UPDATE. -/
def saveTradeSignal (rows : List TradeSignalRow) (row : TradeSignalRow) :
    List TradeSignalRow :=
  if rows.any (fun r => r.trade_id = row.trade_id) then
    rows.map fun r => if r.trade_id = row.trade_id then row else r
  else rows ++ [row]

/-- The route-local processTradeSignal: continue the session already
mapped to this trade id, or create a fresh one at Start with the
current account balance; either way upsert the trade_signals row. -/
def processTradeSignal (st : SystemState) (sig : TradeSignal)
    (newSessionId : String) (balance : ℚ) : Bool × SystemState :=
  match findSessionByTradeId st sig.id with
  | some existing =>
    (true, { st with tradeSignals :=
      saveTradeSignal st.tradeSignals ⟨sig.id, existing.session_id⟩ })
  | none =>
    let s := createNewSession newSessionId sig.symbol "Start" balance
    (true, { st with sessions := st.sessions ++ [s],
                     tradeSignals :=
                       saveTradeSignal st.tradeSignals ⟨sig.id, newSessionId⟩ })

structure WebhookResponse where
  success : Bool
  error : Option String := none

/-- The POST /api/webhook/trade-signal handler: validation (which
performs the duplicate-id check) rejects with a 400-style failure
response, otherwise the signal is processed. -/
def handleTradeSignalPost (st : SystemState) (sig : TradeSignal) (now : Int)
    (newSessionId : String) (balance : ℚ) : WebhookResponse × SystemState :=
  let validation := validateTradeSignal st.processedSignals sig now
  let st1 : SystemState := { st with processedSignals := validation.2 }
  if validation.1.isValid = false then
    ({ success := false,
       error := some ("Signal validation failed: " ++
         String.intercalate ", " validation.1.errors) }, st1)
  else
    let processed := processTradeSignal st1 sig newSessionId balance
    ({ success := processed.1 }, processed.2)

/-! ## Theorems for C7 -/

lemma validateTradeSignal_valid_updates {processed : List String}
    {sig : TradeSignal} {now : Int}
    (h : (validateTradeSignal processed sig now).1.isValid = true) :
    processed.contains sig.id = false ∧
    (validateTradeSignal processed sig now).2 = sig.id :: processed := by
  unfold validateTradeSignal at h ⊢
  cases h0 : (missingFieldErrors sig).isEmpty with
  | false => simp [h0] at h
  | true =>
    simp only [h0] at h ⊢
    cases hc : processed.contains sig.id with
    | true =>
      exfalso
      have hmem : sig.id ∈ processed := by simpa using hc
      simp [signalQuality, hmem, List.isEmpty_eq_true] at h
    | false =>
      have hmem : sig.id ∉ processed := by simpa using hc
      refine ⟨rfl, ?_⟩
      simp [signalQuality, hmem]

lemma validateTradeSignal_dup_invalid {processed : List String}
    {sig : TradeSignal} {now : Int}
    (h : processed.contains sig.id = true) :
    (validateTradeSignal processed sig now).1.isValid = false := by
  unfold validateTradeSignal
  have hmem : sig.id ∈ processed := by simpa using h
  cases h0 : (missingFieldErrors sig).isEmpty with
  | false => simp [h0]
  | true => simp [h0, signalQuality, hmem, List.isEmpty_eq_true]

lemma processTradeSignal_state_of_fresh {st : SystemState} {sig : TradeSignal}
    {sid : String} {bal : ℚ}
    (h : st.tradeSignals.find? (fun r => r.trade_id = sig.id) = none) :
    (processTradeSignal st sig sid bal).2.sessions
        = st.sessions ++ [createNewSession sid sig.symbol "Start" bal] ∧
    (processTradeSignal st sig sid bal).2.tradeSignals
        = st.tradeSignals ++ [⟨sig.id, sid⟩] ∧
    (processTradeSignal st sig sid bal).2.processedSignals
        = st.processedSignals := by
  have hfind : findSessionByTradeId st sig.id = none := by
    unfold findSessionByTradeId
    rw [h]
  have hany : st.tradeSignals.any (fun r => r.trade_id = sig.id) = false := by
    rw [List.any_eq_false]
    intro r hr
    have := List.find?_eq_none.mp h r hr
    simpa using this
  unfold processTradeSignal
  rw [hfind]
  unfold saveTradeSignal
  simp [hany]

lemma handleTradeSignalPost_reject {st : SystemState} {sig : TradeSignal}
    {now : Int} {sid : String} {bal : ℚ}
    (h : (validateTradeSignal st.processedSignals sig now).1.isValid = false) :
    (handleTradeSignalPost st sig now sid bal).1.success = false ∧
    (handleTradeSignalPost st sig now sid bal).2.sessions = st.sessions ∧
    (handleTradeSignalPost st sig now sid bal).2.tradeSignals = st.tradeSignals := by
  unfold handleTradeSignalPost
  simp [h]

/-- C7: re-delivering a signal whose externalId was already processed
is rejected, not silently accepted: if a first delivery of the signal
succeeded (so validation passed and the id entered the processor's
dedup set, creating exactly one new session and one trade_signals
row), then a second delivery of the same signal — at any later time,
with any freshly generated session id and balance — fails validation
as a duplicate and leaves the sessions and trade_signals tables
untouched. -/
theorem claim_C7_duplicate_signal_rejected
    (st : SystemState) (sig : TradeSignal) (now now2 : Int)
    (sid1 sid2 : String) (bal bal2 : ℚ)
    (hfresh : st.tradeSignals.find? (fun r => r.trade_id = sig.id) = none)
    (hsucc : (handleTradeSignalPost st sig now sid1 bal).1.success = true) :
    (handleTradeSignalPost (handleTradeSignalPost st sig now sid1 bal).2
        sig now2 sid2 bal2).1.success = false ∧
    (handleTradeSignalPost (handleTradeSignalPost st sig now sid1 bal).2
        sig now2 sid2 bal2).2.sessions
      = (handleTradeSignalPost st sig now sid1 bal).2.sessions ∧
    (handleTradeSignalPost (handleTradeSignalPost st sig now sid1 bal).2
        sig now2 sid2 bal2).2.tradeSignals
      = (handleTradeSignalPost st sig now sid1 bal).2.tradeSignals ∧
    (handleTradeSignalPost st sig now sid1 bal).2.sessions.length
      = st.sessions.length + 1 ∧
    ((handleTradeSignalPost st sig now sid1 bal).2.tradeSignals.filter
        (fun r => r.trade_id = sig.id)).length = 1 := by
  have hvalid : (validateTradeSignal st.processedSignals sig now).1.isValid = true := by
    cases hb : (validateTradeSignal st.processedSignals sig now).1.isValid with
    | true => rfl
    | false =>
      exfalso
      unfold handleTradeSignalPost at hsucc
      simp [hb] at hsucc
  obtain ⟨hnc, hset⟩ := validateTradeSignal_valid_updates hvalid
  have hstate1 : (handleTradeSignalPost st sig now sid1 bal).2
      = (processTradeSignal
          { st with processedSignals := (validateTradeSignal st.processedSignals sig now).2 }
          sig sid1 bal).2 := by
    unfold handleTradeSignalPost
    simp [hvalid]
  have hfresh1 : ({ st with
      processedSignals := (validateTradeSignal st.processedSignals sig now).2
      } : SystemState).tradeSignals.find? (fun r => r.trade_id = sig.id) = none := hfresh
  obtain ⟨hsess, hrows, hproc⟩ :=
    @processTradeSignal_state_of_fresh _ _ sid1 bal hfresh1
  have hfilter : st.tradeSignals.filter (fun r => r.trade_id = sig.id) = [] := by
    rw [List.filter_eq_nil_iff]
    intro r hr
    have := List.find?_eq_none.mp hfresh r hr
    simpa using this
  have hcontains : (handleTradeSignalPost st sig now sid1 bal).2.processedSignals.contains
      sig.id = true := by
    rw [hstate1, hproc]
    simp [hset]
  have hinv := @validateTradeSignal_dup_invalid _ sig now2 hcontains
  have hrej := @handleTradeSignalPost_reject
    (handleTradeSignalPost st sig now sid1 bal).2 sig now2 sid2 bal2 hinv
  refine ⟨hrej.1, hrej.2.1, hrej.2.2, ?_, ?_⟩
  · rw [hstate1, hsess]
    simp
  · rw [hstate1, hrows, List.filter_append, hfilter]
    simp

lemma processTradeSignal_fst (st : SystemState) (sig : TradeSignal)
    (sid : String) (bal : ℚ) :
    (processTradeSignal st sig sid bal).1 = true := by
  unfold processTradeSignal
  rcases h : findSessionByTradeId st sig.id with _ | s <;> simp [h]

lemma handleTradeSignalPost_accept {st : SystemState} {sig : TradeSignal}
    {now : Int} {sid : String} {bal : ℚ}
    (h : (validateTradeSignal st.processedSignals sig now).1.isValid = true) :
    (handleTradeSignalPost st sig now sid bal).1.success = true := by
  unfold handleTradeSignalPost
  simp [h, processTradeSignal_fst]

/-- A fresh deployment state: empty dedup set and empty tables. -/
def demoState : SystemState :=
  { processedSignals := [], sessions := [], tradeSignals := [] }

/-- A well-formed buy signal as TradingView would deliver it. -/
def demoSignal : TradeSignal :=
  { action := "buy", symbol := "BTCUSDT", timeframe := "1h", time := 0,
    entry := 45000, target := 46000, stop := 44500, id := "TV-001",
    rr := 2, risk := 1 }

lemma demoSignal_valid :
    (validateTradeSignal demoState.processedSignals demoSignal 0).1.isValid = true := by
  have hm : missingFieldErrors demoSignal = [] := by decide
  have hae : actionErrors demoSignal = [] := by decide
  have hte : timeframeErrors demoSignal = [] := by decide
  have ha : toLowerString "buy" = "buy" := by decide
  have hpe : priceErrors demoSignal = [] := by
    norm_num [priceErrors, demoSignal, ha]
    exact ⟨by decide, by decide⟩
  have hre : riskRewardErrors demoSignal = [] := by
    norm_num [riskRewardErrors, demoSignal]
  have hge : ageErrors 0 demoSignal = [] := by
    norm_num [ageErrors, signalAgeHours, demoSignal]
  unfold validateTradeSignal
  simp [hm, hae, hte, hpe, hre, hge, signalQuality, demoState]

/-- Witness for C7: the concrete replay of demoSignal against a fresh
deployment, discharging both hypotheses of the theorem. -/
theorem claim_C7_witness :
    (handleTradeSignalPost
        (handleTradeSignalPost demoState demoSignal 0 "ses_a" 100000).2
        demoSignal 3600000 "ses_b" 100000).1.success = false ∧
    (handleTradeSignalPost
        (handleTradeSignalPost demoState demoSignal 0 "ses_a" 100000).2
        demoSignal 3600000 "ses_b" 100000).2.sessions
      = (handleTradeSignalPost demoState demoSignal 0 "ses_a" 100000).2.sessions ∧
    (handleTradeSignalPost
        (handleTradeSignalPost demoState demoSignal 0 "ses_a" 100000).2
        demoSignal 3600000 "ses_b" 100000).2.tradeSignals
      = (handleTradeSignalPost demoState demoSignal 0 "ses_a" 100000).2.tradeSignals ∧
    (handleTradeSignalPost demoState demoSignal 0 "ses_a" 100000).2.sessions.length
      = demoState.sessions.length + 1 ∧
    ((handleTradeSignalPost demoState demoSignal 0 "ses_a" 100000).2.tradeSignals.filter
        (fun r => r.trade_id = demoSignal.id)).length = 1 := by
  have hfresh : demoState.tradeSignals.find?
      (fun r => r.trade_id = demoSignal.id) = none := rfl
  have hsucc : (handleTradeSignalPost demoState demoSignal 0 "ses_a" 100000).1.success
      = true := handleTradeSignalPost_accept demoSignal_valid
  exact claim_C7_duplicate_signal_rejected demoState demoSignal 0 3600000
    "ses_a" "ses_b" 100000 100000 hfresh hsucc
